import Mathlib

/-!
Verification development for the string/JSON boundary adapter in
src/statsig_swift.cpp and src/statsig_swift.h.

The adapter converts caller-supplied JSON text plus primitive options into
calls on an external evaluation core (statsig.h), and converts the core's
return values and faults into non-throwing result envelopes.

The JSON library used by the source is nlohmann::json, whose object type is
a std::map with keys sorted by std::less on std::string (byte-lexicographic),
and whose merge_patch implements RFC 7386 merge patch.  We embed JSON values
as an inductive type whose object representation is a sorted association
list maintained by std::map-style insertion, and implement merge_patch and
dump after nlohmann's documented algorithms.

The evaluation core is out of scope for the source (declared in statsig.h,
not present under src/); we model it as an explicit state holding the
initialization flag and the responses (value or fault) each core operation
would return, following the spec's interface table.  C++ exceptions are
modelled by the Fault type: a std::exception caught by
catch (const std::exception &) carries its what() message, any other
throwable caught by catch (...) carries none.
-/

namespace StatsigSwift

/-- JSON values as manipulated by the adapter.  Objects are association
lists kept sorted by key, mirroring nlohmann::json's std::map object
representation.  Numbers are modelled as integers (the adapter never
constructs non-integer numbers itself). -/
inductive Json where
  | null : Json
  | bool (b : Bool) : Json
  | num (n : Int) : Json
  | str (s : String) : Json
  | arr (elems : List Json) : Json
  | obj (fields : List (String × Json)) : Json

/-- Lookup of a key in an object field list (std::map::find). -/
def lookupKey : List (String × Json) → String → Option Json
  | [], _ => none
  | (a, b) :: rest, k => if k = a then some b else lookupKey rest k

/-- Whether the field list contains the key. -/
def hasKey (l : List (String × Json)) (k : String) : Bool :=
  (lookupKey l k).isSome

/-- Value at a key, or JSON null when absent: this is what
nlohmann's operator[] yields on a fresh (absent) key before a merge step. -/
def findD (l : List (String × Json)) (k : String) : Json :=
  (lookupKey l k).getD Json.null

/-- Lexicographic strict ordering on character lists, the order std::less
on std::string induces (UTF-8 byte order coincides with code-point
order). -/
def charListLt : List Char → List Char → Bool
  | [], [] => false
  | [], _ :: _ => true
  | _ :: _, [] => false
  | a :: as, b :: bs =>
    if a < b then true
    else if b < a then false
    else charListLt as bs

/-- The strict ordering std::less places on std::string keys. -/
def strLt (a b : String) : Bool :=
  charListLt a.data b.data

/-- Sorted insert-or-assign on the field list (std::map::operator[] followed
by assignment).  Keys are ordered byte-lexicographically, as std::less on
std::string orders them. -/
def setKey : List (String × Json) → String → Json → List (String × Json)
  | [], k, v => [(k, v)]
  | (a, b) :: rest, k, v =>
    if strLt k a then (k, v) :: (a, b) :: rest
    else if k = a then (k, v) :: rest
    else (a, b) :: setKey rest k v

/-- Erase a key from the field list (std::map::erase). -/
def eraseKey : List (String × Json) → String → List (String × Json)
  | [], _ => []
  | (a, b) :: rest, k => if k = a then rest else (a, b) :: eraseKey rest k

/-- Build an object field list from an initializer list of pairs, the way a
std::map is built from a braced initializer list: sequential insertion into
the sorted map. -/
def mkObjFields (l : List (String × Json)) : List (String × Json) :=
  l.foldl (fun acc kv => setKey acc kv.1 kv.2) []

/-- Whether a JSON value is an object (nlohmann is_object). -/
def Json.isObject : Json → Bool
  | .obj _ => true
  | _ => false

/-- Whether a JSON value is null (nlohmann is_null). -/
def Json.isNull : Json → Bool
  | .null => true
  | _ => false

/-- The field list of a JSON value; empty for non-objects.  nlohmann's
merge_patch replaces a non-object target by an empty object before merging,
which is exactly reading its fields as []. -/
def Json.objFields : Json → List (String × Json)
  | .obj fields => fields
  | _ => []

mutual
/-- RFC 7386 merge patch, as implemented by nlohmann::json::merge_patch:
if the patch is an object, merge its members into the target (treating a
non-object target as empty), where a null member erases the key and any
other member is recursively merge-patched into the target's value at that
key (null when absent); a non-object patch replaces the target. -/
def mergePatch (target : Json) (patch : Json) : Json :=
  match patch with
  | .obj fields => .obj (mergeFields (Json.objFields target) fields)
  | _ => patch

/-- Fold of merge_patch's member loop over the patch object's members: a
null member erases its key, any other member is recursively merge-patched
into the value currently at its key. -/
def mergeFields (base : List (String × Json)) :
    List (String × Json) → List (String × Json)
  | [] => base
  | (k, v) :: rest =>
    if v.isNull then mergeFields (eraseKey base k) rest
    else mergeFields (setKey base k (mergePatch (findD base k) v)) rest
end

/-- One hexadecimal digit, lowercase (as nlohmann prints escapes). -/
def hexDigit (n : Nat) : Char :=
  if n < 10 then Char.ofNat (48 + n) else Char.ofNat (87 + n)

/-- Four-digit hexadecimal rendering of a code point below 0x10000. -/
def hex4 (n : Nat) : String :=
  String.mk [hexDigit (n / 4096 % 16), hexDigit (n / 256 % 16),
             hexDigit (n / 16 % 16), hexDigit (n % 16)]

/-- JSON string escaping as nlohmann::json::dump performs it: the two
mandatory escapes, the five shorthand control escapes, numeric escapes for
the remaining control characters, everything else copied through. -/
def escapeChar (c : Char) : String :=
  if c = '"' then "\\\""
  else if c = '\\' then "\\\\"
  else if c = '\x08' then "\\b"
  else if c = '\x09' then "\\t"
  else if c = '\x0a' then "\\n"
  else if c = '\x0c' then "\\f"
  else if c = '\x0d' then "\\r"
  else if c.toNat < 32 then "\\u" ++ hex4 c.toNat
  else String.singleton c

/-- Escape every character of a string for JSON output. -/
def escapeString (s : String) : String :=
  s.data.foldl (fun acc c => acc ++ escapeChar c) ""

mutual
/-- Compact serialization of a JSON value, as nlohmann::json::dump() with
no indentation produces it: no whitespace, object members in the map's
(sorted) key order. -/
def dump : Json → String
  | .null => "null"
  | .bool true => "true"
  | .bool false => "false"
  | .num n => toString n
  | .str s => "\"" ++ escapeString s ++ "\""
  | .arr elems => "[" ++ dumpElems elems ++ "]"
  | .obj fields => "\x7b" ++ dumpMembers fields ++ "\x7d"

/-- Comma-separated serialization of array elements. -/
def dumpElems : List Json → String
  | [] => ""
  | [x] => dump x
  | x :: rest => dump x ++ "," ++ dumpElems rest

/-- Comma-separated serialization of object members. -/
def dumpMembers : List (String × Json) → String
  | [] => ""
  | [(k, v)] => "\"" ++ escapeString k ++ "\":" ++ dump v
  | (k, v) :: rest => "\"" ++ escapeString k ++ "\":" ++ dump v ++ "," ++ dumpMembers rest
end

/-- The default user JSON (default_user_json in the source, lines 12-27):
a braced initializer list of eleven members, held by nlohmann::json's
sorted map.  We list the members in source order and build the sorted map
the way the initializer-list constructor does. -/
def default_user_fields : List (String × Json) :=
  mkObjFields [
    ("userID", Json.str ""),
    ("email", Json.str ""),
    ("ipAddress", Json.str ""),
    ("userAgent", Json.str ""),
    ("country", Json.str ""),
    ("locale", Json.str ""),
    ("appVersion", Json.str ""),
    ("custom", Json.obj []),
    ("privateAttribute", Json.obj []),
    ("statsigEnvironment", Json.obj []),
    ("customIDs", Json.obj [])]

/-- The default user JSON value handed to the merge. -/
def default_user_json : Json :=
  Json.obj default_user_fields

/-- Modelled from the spec: the core's evaluation context type statsig::User
(declared in statsig.h, not under src/).  Per the spec's data model it has
seven string identity fields and four open-ended key-to-value mappings. -/
structure User where
  userID : String
  email : String
  ipAddress : String
  userAgent : String
  country : String
  locale : String
  appVersion : String
  custom : List (String × Json)
  privateAttribute : List (String × Json)
  statsigEnvironment : List (String × Json)
  customIDs : List (String × Json)

/-- A C++ fault crossing the adapter: a std::exception carrying its what()
message, or any other throwable, which carries no message
(caught only by catch (...)). -/
inductive Fault where
  | exn (msg : String) : Fault
  | other : Fault

/-- The message a catch pair extracts from a fault: what() for a
std::exception, the fixed fallback text for anything else. -/
def faultMessageOr (f : Fault) (fallback : String) : String :=
  match f with
  | .exn msg => msg
  | .other => fallback

/-- Read a string member of the merged user object, part of the
deserialization into statsig::User.  Modelled from the spec: an absent
member falls back to the field's default (empty string), a non-string
member is a schema mismatch fault. -/
def getStrField (fields : List (String × Json)) (key : String) : Except Fault String :=
  match lookupKey fields key with
  | none => .ok ""
  | some (.str s) => .ok s
  | some _ => .error (.exn ("type mismatch for key " ++ key))

/-- Read a mapping member of the merged user object.  Modelled from the
spec: an absent member falls back to the empty mapping, a non-object member
is a schema mismatch fault. -/
def getMapField (fields : List (String × Json)) (key : String) :
    Except Fault (List (String × Json)) :=
  match lookupKey fields key with
  | none => .ok []
  | some (.obj f) => .ok f
  | some _ => .error (.exn ("type mismatch for key " ++ key))

/-- Modelled from the spec: the JSON-to-statsig::User conversion invoked by
merged.get<statsig::User>() (provided by json.h, not under src/).  It reads
the eleven known fields, faulting on a type mismatch (SchemaMismatch). -/
def user_from_json (j : Json) : Except Fault User :=
  match j with
  | .obj fields => do
    let userID ← getStrField fields "userID"
    let email ← getStrField fields "email"
    let ipAddress ← getStrField fields "ipAddress"
    let userAgent ← getStrField fields "userAgent"
    let country ← getStrField fields "country"
    let locale ← getStrField fields "locale"
    let appVersion ← getStrField fields "appVersion"
    let custom ← getMapField fields "custom"
    let privateAttribute ← getMapField fields "privateAttribute"
    let statsigEnvironment ← getMapField fields "statsigEnvironment"
    let customIDs ← getMapField fields "customIDs"
    .ok ⟨userID, email, ipAddress, userAgent, country, locale, appVersion,
         custom, privateAttribute, statsigEnvironment, customIDs⟩
  | _ => .error (.exn "type mismatch: user must be an object")

/-- The context a fully-default user deserializes to: all identity fields
empty strings, all mappings empty. -/
def defaultUser : User :=
  ⟨"", "", "", "", "", "", "", [], [], [], []⟩

/-- Result envelope with no payload (statsig_swift.h lines 7-11). -/
structure Result where
  ok : Bool
  error : String

/-- Result envelope with a boolean payload (statsig_swift.h lines 13-18). -/
structure BoolResult where
  ok : Bool
  value : Bool
  error : String

/-- Result envelope with a JSON-text payload (statsig_swift.h lines 20-25). -/
structure StringResult where
  ok : Bool
  value : String
  error : String

/-- Modelled from the spec: the core's statsig::Layer object with its
surfaced fields name, value (the parameter mapping) and ruleID, plus an
extra internal field (the spec's example names groupName) that the adapter
must drop. -/
structure Layer where
  name : String
  value : Json
  ruleID : String
  groupName : String

/-- Modelled from the spec: the core's statsig::Options bag.  api is absent
(none) unless the adapter assigns it, meaning the core keeps its default
endpoint; the remaining fields are always assigned by the adapter before
use, so their defaults are never observable. -/
structure Options where
  api : Option String
  localMode : Bool
  rulesetsSyncIntervalMs : Int
  loggingIntervalMs : Int
  loggingMaxBufferSize : Int

/-- A default-constructed statsig::Options value. -/
def Options.default : Options :=
  ⟨none, false, 0, 0, 0⟩

/-- Modelled from the spec: the external evaluation core behind statsig.h.
It owns the single process-wide initialization flag; each of its operations
may return a value or surface a fault (spec section 6: any consumed core
interface may fault).  lastInitOptions records the options bag most
recently consumed by initialize(key, options), so that what the adapter
passed to the core is observable. -/
structure CoreState where
  initialized : Bool
  initBehavior : Except Fault Unit
  shutdownBehavior : Except Fault Unit
  checkGateResp : User → String → Except Fault Bool
  getConfigResp : User → String → Except Fault Json
  getExperimentResp : User → String → Except Fault Json
  getLayerResp : User → String → Except Fault Layer
  logEventResp : User → String → Except Fault Unit
  lastInitOptions : Option Options

/-- not_initialized_result (source lines 59-62). -/
def not_initialized_result : Result :=
  ⟨false, "Statsig not initialized"⟩

/-- The merged user object built on the non-empty path of parse_user_json
(source lines 33-42): the caller's parsed object merge-patched onto the
defaults. -/
def build_merged (input : Json) : Json :=
  mergePatch default_user_json input

/-- parse_user_json (source lines 29-57).  The nlohmann parse of the raw
text is an external library call; its outcome (a value, or the parse fault
it threw) is the parsed argument, consulted only when the raw text is
non-empty, exactly as in the source.  All faults of the try block are
caught: a std::exception becomes its what() message, anything else the
fixed text "Failed to parse userJson". -/
def parse_user_json (user_json : String) (parsed : Except Fault Json) :
    Except String User :=
  if user_json.isEmpty then
    match user_from_json default_user_json with
    | .ok u => .ok u
    | .error f => .error (faultMessageOr f "Failed to parse userJson")
  else
    match parsed with
    | .error f => .error (faultMessageOr f "Failed to parse userJson")
    | .ok input =>
      if !input.isObject then .error "userJson must be a JSON object"
      else
        match user_from_json (build_merged input) with
        | .ok u => .ok u
        | .error f => .error (faultMessageOr f "Failed to parse userJson")

/-- isInitialized (source lines 67-70): pure pass-through of the core's
flag. -/
def isInitialized (st : CoreState) : Bool :=
  st.initialized

/-- initialize (source lines 72-80); named initializeOp because initialize
is reserved in Lean.  The call into the core's initialize is not inside any
try block, so a fault from it escapes the adapter: the result is
Except.error in that case. -/
def initializeOp (st : CoreState) (sdkKey : String) :
    Except Fault (Result × CoreState) :=
  if st.initialized then .ok (⟨false, "Statsig already initialized"⟩, st)
  else
    match st.initBehavior with
    | .ok _ => .ok (⟨true, ""⟩, { st with initialized := true })
    | .error f => .error f

/-- initializeWithOptions (source lines 82-105).  The options bag is built
exactly as in the source: api assigned only when non-empty, localMode and
the three integer tunables assigned unconditionally; the core's initialize
is again outside any try block, so its fault escapes. -/
def initializeWithOptions (st : CoreState) (sdkKey : String) (api : String)
    (localMode : Bool) (rulesetsSyncIntervalMs : Int) (loggingIntervalMs : Int)
    (loggingMaxBufferSize : Int) : Except Fault (Result × CoreState) :=
  if st.initialized then .ok (⟨false, "Statsig already initialized"⟩, st)
  else
    let options := Options.default
    let options := if !api.isEmpty then { options with api := some api } else options
    let options := { options with
      localMode := localMode,
      rulesetsSyncIntervalMs := rulesetsSyncIntervalMs,
      loggingIntervalMs := loggingIntervalMs,
      loggingMaxBufferSize := loggingMaxBufferSize }
    match st.initBehavior with
    | .ok _ => .ok (⟨true, ""⟩,
        { st with initialized := true, lastInitOptions := some options })
    | .error f => .error f

/-- shutdown (source lines 107-115).  The core's shutdown is outside any
try block, so its fault escapes; on success the core's flag is cleared. -/
def shutdown (st : CoreState) : Except Fault (Result × CoreState) :=
  if !st.initialized then .ok (not_initialized_result, st)
  else
    match st.shutdownBehavior with
    | .ok _ => .ok (⟨true, ""⟩, { st with initialized := false })
    | .error f => .error f

/-- checkGateJson (source lines 117-142).  The core call is wrapped in
try/catch: a std::exception fault becomes its message, any other fault the
fixed text "Failed to check gate"; no fault escapes. -/
def checkGateJson (st : CoreState) (userJson : String)
    (parsed : Except Fault Json) (gateName : String) : BoolResult :=
  if !st.initialized then ⟨false, false, "Statsig not initialized"⟩
  else
    match parse_user_json userJson parsed with
    | .error e => ⟨false, false, e⟩
    | .ok user =>
      match st.checkGateResp user gateName with
      | .ok value => ⟨true, value, ""⟩
      | .error f => ⟨false, false, faultMessageOr f "Failed to check gate"⟩

/-- getConfigJson (source lines 144-170).  The returned DynamicConfig is
serialized through its (external) JSON conversion; we model the core as
returning that JSON value directly and the adapter dumping it. -/
def getConfigJson (st : CoreState) (userJson : String)
    (parsed : Except Fault Json) (configName : String) : StringResult :=
  if !st.initialized then ⟨false, "", "Statsig not initialized"⟩
  else
    match parse_user_json userJson parsed with
    | .error e => ⟨false, "", e⟩
    | .ok user =>
      match st.getConfigResp user configName with
      | .ok json => ⟨true, dump json, ""⟩
      | .error f => ⟨false, "", faultMessageOr f "Failed to get config"⟩

/-- getExperimentJson (source lines 172-198), identical to getConfigJson up
to the core operation and fallback text. -/
def getExperimentJson (st : CoreState) (userJson : String)
    (parsed : Except Fault Json) (experimentName : String) : StringResult :=
  if !st.initialized then ⟨false, "", "Statsig not initialized"⟩
  else
    match parse_user_json userJson parsed with
    | .error e => ⟨false, "", e⟩
    | .ok user =>
      match st.getExperimentResp user experimentName with
      | .ok json => ⟨true, dump json, ""⟩
      | .error f => ⟨false, "", faultMessageOr f "Failed to get experiment"⟩

/-- getLayerJson (source lines 200-229).  A fresh JSON object receives the
layer's name, value and ruleID by operator[] assignment (sorted-map
insertion) and is dumped; every other field of the layer is dropped. -/
def getLayerJson (st : CoreState) (userJson : String)
    (parsed : Except Fault Json) (layerName : String) : StringResult :=
  if !st.initialized then ⟨false, "", "Statsig not initialized"⟩
  else
    match parse_user_json userJson parsed with
    | .error e => ⟨false, "", e⟩
    | .ok user =>
      match st.getLayerResp user layerName with
      | .ok layer =>
        let fields := setKey [] "name" (Json.str layer.name)
        let fields := setKey fields "value" layer.value
        let fields := setKey fields "ruleID" (Json.str layer.ruleID)
        ⟨true, dump (Json.obj fields), ""⟩
      | .error f => ⟨false, "", faultMessageOr f "Failed to get layer"⟩

/-- logEventJson (source lines 231-256). -/
def logEventJson (st : CoreState) (userJson : String)
    (parsed : Except Fault Json) (eventName : String) : Result :=
  if !st.initialized then not_initialized_result
  else
    match parse_user_json userJson parsed with
    | .error e => ⟨false, e⟩
    | .ok user =>
      match st.logEventResp user eventName with
      | .ok _ => ⟨true, ""⟩
      | .error f => ⟨false, faultMessageOr f "Failed to log event"⟩

/-- Sortedness of an object field list: keys strictly increasing in the
std::less order, the invariant of nlohmann's std::map representation. -/
def KeySorted (l : List (String × Json)) : Prop :=
  List.Pairwise (fun p q => strLt p.1 q.1 = true) l

/-- Invariant predicates of the result envelopes that the code maintains:
a successful envelope carries an empty error. -/
def resultInv (r : Result) : Prop :=
  r.ok = true → r.error = ""

/-- Envelope invariant for BoolResult: success carries an empty error,
failure a zero (false) payload. -/
def boolResultInv (r : BoolResult) : Prop :=
  (r.ok = true → r.error = "") ∧ (r.ok = false → r.value = false)

/-- Envelope invariant for StringResult: success carries an empty error,
failure a zero (empty string) payload. -/
def stringResultInv (r : StringResult) : Prop :=
  (r.ok = true → r.error = "") ∧ (r.ok = false → r.value = "")

/-- A concrete initialized core whose every operation succeeds. -/
def respondingCore : CoreState :=
  ⟨true, .ok (), .ok (),
   fun _ _ => .ok true,
   fun _ _ => .ok Json.null,
   fun _ _ => .ok Json.null,
   fun _ _ => .ok ⟨"", Json.null, "", ""⟩,
   fun _ _ => .ok (),
   none⟩

/-- The same core before initialization. -/
def uninitializedCore : CoreState :=
  { respondingCore with initialized := false }

/-- An uninitialized core whose initialize faults with a message-bearing
exception. -/
def faultingInitCore : CoreState :=
  { uninitializedCore with initBehavior := .error (.exn "core initialize fault") }

/-- An initialized core whose every evaluation operation faults. -/
def failingEvalCore : CoreState :=
  { respondingCore with
    checkGateResp := fun _ _ => .error Fault.other,
    getConfigResp := fun _ _ => .error (.exn "config fault"),
    getExperimentResp := fun _ _ => .error (.exn "experiment fault"),
    getLayerResp := fun _ _ => .error Fault.other,
    logEventResp := fun _ _ => .error Fault.other }

/-- An initialized core whose gate check throws a std::exception whose
what() message is the empty string. -/
def emptyMessageFaultCore : CoreState :=
  { respondingCore with checkGateResp := fun _ _ => .error (.exn "") }

/-- The layer object of the spec's worked example: three surfaced fields
plus the extra internal field groupName. -/
def exampleLayer : Layer :=
  ⟨"my_layer", Json.obj [("x", Json.num 1)], "default", "g1"⟩

/-- An initialized core that returns the example layer. -/
def exampleLayerCore : CoreState :=
  { respondingCore with getLayerResp := fun _ _ => .ok exampleLayer }

/-- The caller object of the merge counterexample: a nested mapping with a
null member, text form of the JSON input written below it. -/
def nestedNullInput : Json :=
  Json.obj [("custom", Json.obj [("a", Json.null)])]

/-- The raw text that parses to nestedNullInput. -/
def nestedNullText : String :=
  "\x7b\"custom\":\x7b\"a\":null\x7d\x7d"

theorem charListLt_irrefl (l : List Char) : charListLt l l = false := by
  induction l with
  | nil => rfl
  | cons a as ih => simp [charListLt, ih]

theorem charListLt_trans : ∀ {a b c : List Char}, charListLt a b = true →
    charListLt b c = true → charListLt a c = true := by
  intro a
  induction a with
  | nil =>
    intro b c h1 h2
    cases b with
    | nil => simp [charListLt] at h1
    | cons y bs =>
      cases c with
      | nil => simp [charListLt] at h2
      | cons z cs => rfl
  | cons x as ih =>
    intro b c h1 h2
    cases b with
    | nil => simp [charListLt] at h1
    | cons y bs =>
      cases c with
      | nil => simp [charListLt] at h2
      | cons z cs =>
        simp only [charListLt] at h1 h2 ⊢
        rcases lt_trichotomy x y with hxy | hxy | hxy
        · rcases lt_trichotomy y z with hyz | hyz | hyz
          · rw [if_pos (lt_trans hxy hyz)]
          · subst hyz; rw [if_pos hxy]
          · rw [if_neg (not_lt.mpr (le_of_lt hyz)), if_pos hyz] at h2
            simp at h2
        · subst hxy
          rw [if_neg (lt_irrefl x), if_neg (lt_irrefl x)] at h1
          rcases lt_trichotomy x z with hyz | hyz | hyz
          · rw [if_pos hyz]
          · subst hyz
            rw [if_neg (lt_irrefl x), if_neg (lt_irrefl x)] at h2 ⊢
            exact ih h1 h2
          · rw [if_neg (not_lt.mpr (le_of_lt hyz)), if_pos hyz] at h2
            simp at h2
        · rw [if_neg (not_lt.mpr (le_of_lt hxy)), if_pos hxy] at h1
          simp at h1

theorem charListLt_total : ∀ {a b : List Char}, charListLt a b = false →
    a ≠ b → charListLt b a = true := by
  intro a
  induction a with
  | nil =>
    intro b h1 h2
    cases b with
    | nil => exact absurd rfl h2
    | cons y bs => simp [charListLt] at h1
  | cons x as ih =>
    intro b h1 h2
    cases b with
    | nil => rfl
    | cons y bs =>
      simp only [charListLt] at h1 ⊢
      rcases lt_trichotomy x y with hxy | hxy | hxy
      · rw [if_pos hxy] at h1; simp at h1
      · subst hxy
        rw [if_neg (lt_irrefl x), if_neg (lt_irrefl x)] at h1 ⊢
        have hne : as ≠ bs := fun h => h2 (by rw [h])
        exact ih h1 hne
      · rw [if_pos hxy]

theorem strLt_irrefl (s : String) : strLt s s = false :=
  charListLt_irrefl s.data

theorem strLt_trans {a b c : String} (h1 : strLt a b = true)
    (h2 : strLt b c = true) : strLt a c = true :=
  charListLt_trans h1 h2

theorem strLt_total {a b : String} (h1 : strLt a b = false) (h2 : a ≠ b) :
    strLt b a = true :=
  charListLt_total h1 (fun h => h2 (by cases a; cases b; exact congrArg String.mk h))

theorem lookupKey_eq_none_of_forall_ne (l : List (String × Json)) (k : String)
    (h : ∀ p ∈ l, p.1 ≠ k) : lookupKey l k = none := by
  induction l with
  | nil => rfl
  | cons p rest ih =>
    obtain ⟨a, b⟩ := p
    have ha : a ≠ k := h (a, b) (List.mem_cons_self _ _)
    simp only [lookupKey]
    rw [if_neg (fun hk => ha hk.symm)]
    exact ih (fun q hq => h q (List.mem_cons_of_mem _ hq))

theorem lookupKey_setKey_self (l : List (String × Json)) (k : String) (v : Json) :
    lookupKey (setKey l k v) k = some v := by
  induction l with
  | nil => simp [setKey, lookupKey]
  | cons p rest ih =>
    obtain ⟨a, b⟩ := p
    simp only [setKey]
    by_cases h1 : strLt k a = true
    · simp [h1, lookupKey]
    · by_cases h2 : k = a
      · simp [h1, h2, strLt_irrefl, lookupKey]
      · simp [h1, h2, lookupKey, ih]

theorem lookupKey_setKey_ne (l : List (String × Json)) (a k : String) (v : Json)
    (h : k ≠ a) : lookupKey (setKey l a v) k = lookupKey l k := by
  induction l with
  | nil => simp [setKey, lookupKey, h]
  | cons p rest ih =>
    obtain ⟨c, d⟩ := p
    simp only [setKey]
    by_cases h1 : strLt a c = true
    · simp [h1, lookupKey, h]
    · by_cases h2 : a = c
      · subst h2
        simp [h1, lookupKey, h]
      · simp only [h1, h2, if_false, lookupKey]
        by_cases h3 : k = c
        · simp [h3]
        · simp [h3, ih]

theorem lookupKey_eraseKey_ne (l : List (String × Json)) (a k : String)
    (h : k ≠ a) : lookupKey (eraseKey l a) k = lookupKey l k := by
  induction l with
  | nil => rfl
  | cons p rest ih =>
    obtain ⟨c, d⟩ := p
    simp only [eraseKey]
    by_cases h1 : a = c
    · subst h1
      simp [lookupKey, h]
    · simp only [h1, if_false, lookupKey]
      by_cases h3 : k = c
      · simp [h3]
      · simp [h3, ih]

theorem keys_setKey_subset (l : List (String × Json)) (k : String) (v : Json) :
    ∀ p ∈ setKey l k v, p.1 = k ∨ p.1 ∈ l.map Prod.fst := by
  induction l with
  | nil =>
    intro p hp
    simp only [setKey] at hp
    rcases List.mem_cons.mp hp with hp | hp
    · left; rw [hp]
    · simp at hp
  | cons q rest ih =>
    obtain ⟨a, b⟩ := q
    intro p hp
    simp only [setKey] at hp
    by_cases h1 : strLt k a = true
    · rw [if_pos h1] at hp
      rcases List.mem_cons.mp hp with hp | hp
      · left; rw [hp]
      · right; exact List.mem_map_of_mem Prod.fst hp
    · by_cases h2 : k = a
      · rw [if_neg h1, if_pos h2] at hp
        rcases List.mem_cons.mp hp with hp | hp
        · left; rw [hp]
        · right
          simp only [List.map_cons, List.mem_cons]
          right
          exact List.mem_map_of_mem Prod.fst hp
      · rw [if_neg h1, if_neg h2] at hp
        rcases List.mem_cons.mp hp with hp | hp
        · right; rw [hp]; simp
        · rcases ih p hp with hk | hk
          · left; exact hk
          · right
            simp only [List.map_cons, List.mem_cons]
            right
            exact hk

theorem keySorted_setKey (l : List (String × Json)) (k : String) (v : Json)
    (hs : KeySorted l) : KeySorted (setKey l k v) := by
  induction l with
  | nil => simp [setKey, KeySorted]
  | cons q rest ih =>
    obtain ⟨a, b⟩ := q
    rw [KeySorted, List.pairwise_cons] at hs
    obtain ⟨ha, hrest⟩ := hs
    simp only [setKey]
    by_cases h1 : strLt k a = true
    · rw [if_pos h1]
      rw [KeySorted, List.pairwise_cons]
      constructor
      · intro q hq
        rcases List.mem_cons.mp hq with hq | hq
        · rw [hq]; exact h1
        · exact strLt_trans h1 (ha q hq)
      · exact List.pairwise_cons.mpr ⟨ha, hrest⟩
    · by_cases h2 : k = a
      · rw [if_neg h1, if_pos h2]
        rw [KeySorted, List.pairwise_cons]
        subst h2
        exact ⟨ha, hrest⟩
      · rw [if_neg h1, if_neg h2]
        rw [KeySorted, List.pairwise_cons]
        constructor
        · intro q' hq
          rcases keys_setKey_subset rest k v q' hq with hk | hk
          · rw [hk]
            have h1f : strLt k a = false := by
              cases hb : strLt k a
              · rfl
              · exact absurd hb h1
            exact strLt_total h1f h2
          · obtain ⟨p, hp, hpk⟩ := List.mem_map.mp hk
            rw [← hpk]
            exact ha p hp
        · exact ih hrest

theorem eraseKey_sublist (l : List (String × Json)) (k : String) :
    List.Sublist (eraseKey l k) l := by
  induction l with
  | nil => simp [eraseKey]
  | cons q rest ih =>
    obtain ⟨a, b⟩ := q
    simp only [eraseKey]
    by_cases h1 : k = a
    · rw [if_pos h1]
      exact List.sublist_cons_of_sublist _ (List.Sublist.refl rest)
    · rw [if_neg h1]
      exact List.Sublist.cons₂ _ ih

theorem keySorted_eraseKey (l : List (String × Json)) (k : String)
    (hs : KeySorted l) : KeySorted (eraseKey l k) :=
  List.Pairwise.sublist (eraseKey_sublist l k) hs

theorem lookupKey_eraseKey_self (l : List (String × Json)) (k : String)
    (hs : KeySorted l) : lookupKey (eraseKey l k) k = none := by
  induction l with
  | nil => rfl
  | cons q rest ih =>
    obtain ⟨a, b⟩ := q
    rw [KeySorted, List.pairwise_cons] at hs
    obtain ⟨ha, hrest⟩ := hs
    simp only [eraseKey]
    by_cases h1 : k = a
    · rw [if_pos h1]
      apply lookupKey_eq_none_of_forall_ne
      intro p hp hpk
      have hlt := ha p hp
      rw [hpk, h1] at hlt
      have hirr := strLt_irrefl a
      rw [hlt] at hirr
      exact Bool.noConfusion hirr
    · rw [if_neg h1]
      simp only [lookupKey]
      rw [if_neg h1]
      exact ih hrest

theorem lookupKey_mergeFields_absent (fields : List (String × Json)) :
    ∀ base : List (String × Json), ∀ k : String, (∀ p ∈ fields, p.1 ≠ k) →
    lookupKey (mergeFields base fields) k = lookupKey base k := by
  induction fields with
  | nil => intro base k _; rfl
  | cons q rest ih =>
    obtain ⟨a, v⟩ := q
    intro base k h
    have ha : a ≠ k := h (a, v) (List.mem_cons_self _ _)
    have hrest : ∀ p ∈ rest, p.1 ≠ k := fun p hp => h p (List.mem_cons_of_mem _ hp)
    simp only [mergeFields]
    by_cases hv : v.isNull
    · rw [if_pos hv, ih _ _ hrest, lookupKey_eraseKey_ne _ _ _ (fun hk => ha hk.symm)]
    · rw [if_neg hv, ih _ _ hrest, lookupKey_setKey_ne _ _ _ _ (fun hk => ha hk.symm)]

theorem isNull_iff (v : Json) : v.isNull = true ↔ v = Json.null := by
  cases v <;> simp [Json.isNull]

theorem mergeFields_lookup (fields : List (String × Json)) :
    ∀ base : List (String × Json), (fields.map Prod.fst).Nodup → KeySorted base →
    ∀ k : String,
    (lookupKey fields k = none →
      lookupKey (mergeFields base fields) k = lookupKey base k) ∧
    (lookupKey fields k = some Json.null →
      lookupKey (mergeFields base fields) k = none) ∧
    (∀ v, v ≠ Json.null → lookupKey fields k = some v →
      lookupKey (mergeFields base fields) k = some (mergePatch (findD base k) v)) := by
  induction fields with
  | nil =>
    intro base _ _ k
    refine ⟨fun _ => rfl, fun h => by simp [lookupKey] at h,
      fun v _ h => by simp [lookupKey] at h⟩
  | cons q rest ih =>
    obtain ⟨a, v1⟩ := q
    intro base hnd hs k
    have hndr : (rest.map Prod.fst).Nodup := by
      simp only [List.map_cons, List.nodup_cons] at hnd
      exact hnd.2
    have hna : a ∉ rest.map Prod.fst := by
      simp only [List.map_cons, List.nodup_cons] at hnd
      exact hnd.1
    by_cases hk : k = a
    · subst hk
      have habs : ∀ p ∈ rest, p.1 ≠ k := by
        intro p hp hpk
        exact hna (hpk ▸ List.mem_map_of_mem Prod.fst hp)
      by_cases hv : v1.isNull
      · have hv1 : v1 = Json.null := (isNull_iff v1).mp hv
        subst hv1
        refine ⟨?_, ?_, ?_⟩
        · intro h; simp [lookupKey] at h
        · intro _
          simp only [mergeFields, Json.isNull, if_true]
          rw [lookupKey_mergeFields_absent rest _ _ habs]
          exact lookupKey_eraseKey_self base k hs
        · intro v hv hlk
          simp [lookupKey] at hlk
          first
          | exact absurd hlk hv
          | exact absurd hlk.symm hv
      · have hv1 : v1 ≠ Json.null := fun h => by
          rw [h] at hv; exact hv rfl
        refine ⟨?_, ?_, ?_⟩
        · intro h; simp [lookupKey] at h
        · intro h
          simp [lookupKey] at h
          exact absurd h hv1
        · intro v hvn hlk
          have hveq : v1 = v := by simpa [lookupKey] using hlk
          subst hveq
          simp only [mergeFields]
          rw [if_neg hv, lookupKey_mergeFields_absent rest _ _ habs,
            lookupKey_setKey_self]
    · have hlk : lookupKey ((a, v1) :: rest) k = lookupKey rest k := by
        simp [lookupKey, hk]
      by_cases hv : v1.isNull
      · have hbase := ih (eraseKey base a) hndr (keySorted_eraseKey base a hs) k
        have herase : lookupKey (eraseKey base a) k = lookupKey base k :=
          lookupKey_eraseKey_ne base a k hk
        have hfind : findD (eraseKey base a) k = findD base k :=
          congrArg (fun o => o.getD Json.null) herase
        refine ⟨?_, ?_, ?_⟩
        · intro h
          rw [hlk] at h
          simp only [mergeFields, if_pos hv]
          rw [(hbase.1 h), herase]
        · intro h
          rw [hlk] at h
          simp only [mergeFields, if_pos hv]
          exact hbase.2.1 h
        · intro v hvn h
          rw [hlk] at h
          simp only [mergeFields, if_pos hv]
          rw [hbase.2.2 v hvn h, hfind]
      · have hbase := ih (setKey base a (mergePatch (findD base a) v1)) hndr
          (keySorted_setKey base a _ hs) k
        have hset : lookupKey (setKey base a (mergePatch (findD base a) v1)) k
            = lookupKey base k := lookupKey_setKey_ne base a k _ hk
        have hfind : findD (setKey base a (mergePatch (findD base a) v1)) k
            = findD base k :=
          congrArg (fun o => o.getD Json.null) hset
        refine ⟨?_, ?_, ?_⟩
        · intro h
          rw [hlk] at h
          simp only [mergeFields, if_neg hv]
          rw [(hbase.1 h), hset]
        · intro h
          rw [hlk] at h
          simp only [mergeFields, if_neg hv]
          exact hbase.2.1 h
        · intro v hvn h
          rw [hlk] at h
          simp only [mergeFields, if_neg hv]
          rw [hbase.2.2 v hvn h, hfind]

theorem keySorted_default_user_fields : KeySorted default_user_fields := by
  rw [KeySorted]
  decide

theorem mergePatch_non_object (t v : Json) (h : v.isObject = false) :
    mergePatch t v = v := by
  cases v
  case obj => simp [Json.isObject] at h
  all_goals rfl

theorem setKey_layer_eval (v1 v2 v3 : Json) :
    setKey (setKey (setKey [] "name" v1) "value" v2) "ruleID" v3
      = [("name", v1), ("ruleID", v3), ("value", v2)] := by
  simp +decide [setKey]

/-- C1 (counterexample): the claim says initialize never lets a core fault
escape, but the source wraps no try/catch around the core's initialize; on
a core whose initialize faults, the adapter call yields the escaped fault
itself instead of a result envelope. -/
theorem c1_counterexample_initialize_fault_escapes :
    initializeOp faultingInitCore "sdk-key"
      = .error (.exn "core initialize fault") := rfl

/-- C1 (amended): each of the five evaluation operations is fault-isolated:
a core fault is converted into its envelope with ok=false, the payload at
its zero value, and the fault's message (or the fixed per-operation
fallback "Failed to <operation>" when the fault carries no message); the
lifecycle operations initialize, initializeWithOptions and shutdown are
not so isolated (see the counterexample). -/
theorem c1_eval_operations_fault_isolated (st : CoreState) (userJson : String)
    (parsed : Except Fault Json) (user : User)
    (gateName configName experimentName layerName eventName : String)
    (fg fc fe fl fv : Fault) (hInit : st.initialized = true)
    (hParse : parse_user_json userJson parsed = .ok user)
    (hg : st.checkGateResp user gateName = .error fg)
    (hc : st.getConfigResp user configName = .error fc)
    (he : st.getExperimentResp user experimentName = .error fe)
    (hl : st.getLayerResp user layerName = .error fl)
    (hv : st.logEventResp user eventName = .error fv) :
    checkGateJson st userJson parsed gateName
      = ⟨false, false, faultMessageOr fg "Failed to check gate"⟩ ∧
    getConfigJson st userJson parsed configName
      = ⟨false, "", faultMessageOr fc "Failed to get config"⟩ ∧
    getExperimentJson st userJson parsed experimentName
      = ⟨false, "", faultMessageOr fe "Failed to get experiment"⟩ ∧
    getLayerJson st userJson parsed layerName
      = ⟨false, "", faultMessageOr fl "Failed to get layer"⟩ ∧
    logEventJson st userJson parsed eventName
      = ⟨false, faultMessageOr fv "Failed to log event"⟩ := by
  refine ⟨?_, ?_, ?_, ?_, ?_⟩ <;>
    simp [checkGateJson, getConfigJson, getExperimentJson, getLayerJson,
      logEventJson, hInit, hParse, hg, hc, he, hl, hv]

theorem c1_eval_operations_fault_isolated_witness :
    checkGateJson failingEvalCore "" (.ok Json.null) "g"
      = ⟨false, false, "Failed to check gate"⟩ ∧
    getConfigJson failingEvalCore "" (.ok Json.null) "c"
      = ⟨false, "", "config fault"⟩ ∧
    getExperimentJson failingEvalCore "" (.ok Json.null) "e"
      = ⟨false, "", "experiment fault"⟩ ∧
    getLayerJson failingEvalCore "" (.ok Json.null) "l"
      = ⟨false, "", "Failed to get layer"⟩ ∧
    logEventJson failingEvalCore "" (.ok Json.null) "v"
      = ⟨false, "Failed to log event"⟩ :=
  c1_eval_operations_fault_isolated failingEvalCore "" (.ok Json.null) defaultUser
    "g" "c" "e" "l" "v" Fault.other (.exn "config fault") (.exn "experiment fault")
    Fault.other Fault.other rfl rfl rfl rfl rfl rfl rfl

/-- C5: whenever the core reports not-initialized, each of the five
evaluation operations returns ok=false with the NotInitialized error, for
every userJson and every parse outcome; since the equality holds with the
parse outcome and all core responses universally quantified, the result is
reached without consulting the parser and without invoking any core
evaluation operation. -/
theorem c5_not_initialized_short_circuit (st : CoreState) (userJson : String)
    (parsed : Except Fault Json) (name : String)
    (hInit : st.initialized = false) :
    checkGateJson st userJson parsed name
      = ⟨false, false, "Statsig not initialized"⟩ ∧
    getConfigJson st userJson parsed name = ⟨false, "", "Statsig not initialized"⟩ ∧
    getExperimentJson st userJson parsed name
      = ⟨false, "", "Statsig not initialized"⟩ ∧
    getLayerJson st userJson parsed name = ⟨false, "", "Statsig not initialized"⟩ ∧
    logEventJson st userJson parsed name = ⟨false, "Statsig not initialized"⟩ := by
  refine ⟨?_, ?_, ?_, ?_, ?_⟩ <;>
    simp [checkGateJson, getConfigJson, getExperimentJson, getLayerJson,
      logEventJson, not_initialized_result, hInit]

theorem c5_not_initialized_short_circuit_witness :
    checkGateJson uninitializedCore "not json" (.error Fault.other) "gate"
      = ⟨false, false, "Statsig not initialized"⟩ ∧
    getConfigJson uninitializedCore "not json" (.error Fault.other) "gate"
      = ⟨false, "", "Statsig not initialized"⟩ ∧
    getExperimentJson uninitializedCore "not json" (.error Fault.other) "gate"
      = ⟨false, "", "Statsig not initialized"⟩ ∧
    getLayerJson uninitializedCore "not json" (.error Fault.other) "gate"
      = ⟨false, "", "Statsig not initialized"⟩ ∧
    logEventJson uninitializedCore "not json" (.error Fault.other) "gate"
      = ⟨false, "Statsig not initialized"⟩ :=
  c5_not_initialized_short_circuit uninitializedCore "not json"
    (.error Fault.other) "gate" rfl

/-- C7: for a non-empty userJson, context building fails with the parse
fault's message ("Failed to parse userJson" when the fault carries none)
when the text is not valid JSON, and with the NotAnObject message when the
parsed value is not an object; each evaluation operation then returns
ok=false with that message and the payload at its zero value. -/
theorem c7_parse_failure_modes (st : CoreState) (userJson : String) (f : Fault)
    (v : Json) (name : String) (hInit : st.initialized = true)
    (hNE : userJson.isEmpty = false) (hv : v.isObject = false) :
    parse_user_json userJson (.error f)
      = .error (faultMessageOr f "Failed to parse userJson") ∧
    parse_user_json userJson (.ok v) = .error "userJson must be a JSON object" ∧
    checkGateJson st userJson (.error f) name
      = ⟨false, false, faultMessageOr f "Failed to parse userJson"⟩ ∧
    checkGateJson st userJson (.ok v) name
      = ⟨false, false, "userJson must be a JSON object"⟩ ∧
    getConfigJson st userJson (.error f) name
      = ⟨false, "", faultMessageOr f "Failed to parse userJson"⟩ ∧
    getConfigJson st userJson (.ok v) name
      = ⟨false, "", "userJson must be a JSON object"⟩ ∧
    getExperimentJson st userJson (.error f) name
      = ⟨false, "", faultMessageOr f "Failed to parse userJson"⟩ ∧
    getExperimentJson st userJson (.ok v) name
      = ⟨false, "", "userJson must be a JSON object"⟩ ∧
    getLayerJson st userJson (.error f) name
      = ⟨false, "", faultMessageOr f "Failed to parse userJson"⟩ ∧
    getLayerJson st userJson (.ok v) name
      = ⟨false, "", "userJson must be a JSON object"⟩ ∧
    logEventJson st userJson (.error f) name
      = ⟨false, faultMessageOr f "Failed to parse userJson"⟩ ∧
    logEventJson st userJson (.ok v) name
      = ⟨false, "userJson must be a JSON object"⟩ := by
  have hp1 : parse_user_json userJson (.error f)
      = .error (faultMessageOr f "Failed to parse userJson") := by
    simp [parse_user_json, hNE]
  have hp2 : parse_user_json userJson (.ok v)
      = .error "userJson must be a JSON object" := by
    simp [parse_user_json, hNE, hv]
  refine ⟨hp1, hp2, ?_, ?_, ?_, ?_, ?_, ?_, ?_, ?_, ?_, ?_⟩ <;>
    simp [checkGateJson, getConfigJson, getExperimentJson, getLayerJson,
      logEventJson, hInit, hp1, hp2]

theorem c7_parse_failure_modes_witness :
    parse_user_json "[1" (.error (.exn "syntax error at 3"))
      = .error "syntax error at 3" ∧
    parse_user_json "[1]" (.ok (Json.arr [Json.num 1]))
      = .error "userJson must be a JSON object" ∧
    checkGateJson respondingCore "[1" (.error (.exn "syntax error at 3")) "gate"
      = ⟨false, false, "syntax error at 3"⟩ ∧
    checkGateJson respondingCore "[1" (.ok (Json.arr [Json.num 1])) "gate"
      = ⟨false, false, "userJson must be a JSON object"⟩ ∧
    getConfigJson respondingCore "[1" (.error (.exn "syntax error at 3")) "gate"
      = ⟨false, "", "syntax error at 3"⟩ ∧
    getConfigJson respondingCore "[1" (.ok (Json.arr [Json.num 1])) "gate"
      = ⟨false, "", "userJson must be a JSON object"⟩ ∧
    getExperimentJson respondingCore "[1" (.error (.exn "syntax error at 3")) "gate"
      = ⟨false, "", "syntax error at 3"⟩ ∧
    getExperimentJson respondingCore "[1" (.ok (Json.arr [Json.num 1])) "gate"
      = ⟨false, "", "userJson must be a JSON object"⟩ ∧
    getLayerJson respondingCore "[1" (.error (.exn "syntax error at 3")) "gate"
      = ⟨false, "", "syntax error at 3"⟩ ∧
    getLayerJson respondingCore "[1" (.ok (Json.arr [Json.num 1])) "gate"
      = ⟨false, "", "userJson must be a JSON object"⟩ ∧
    logEventJson respondingCore "[1" (.error (.exn "syntax error at 3")) "gate"
      = ⟨false, "syntax error at 3"⟩ ∧
    logEventJson respondingCore "[1" (.ok (Json.arr [Json.num 1])) "gate"
      = ⟨false, "userJson must be a JSON object"⟩ :=
  c7_parse_failure_modes respondingCore "[1" (.exn "syntax error at 3")
    (Json.arr [Json.num 1]) "gate" rfl rfl rfl

/-- C8: for the empty input string, context building succeeds for every
parse outcome (the parser is never consulted) and yields exactly the
default context: the seven identity fields are the empty string and the
four mappings are empty. -/
theorem c8_empty_input_yields_defaults (parsed : Except Fault Json) :
    parse_user_json "" parsed = .ok defaultUser ∧
    defaultUser.userID = "" ∧ defaultUser.email = "" ∧
    defaultUser.ipAddress = "" ∧ defaultUser.userAgent = "" ∧
    defaultUser.country = "" ∧ defaultUser.locale = "" ∧
    defaultUser.appVersion = "" ∧ defaultUser.custom = [] ∧
    defaultUser.privateAttribute = [] ∧ defaultUser.statsigEnvironment = [] ∧
    defaultUser.customIDs = [] :=
  ⟨rfl, rfl, rfl, rfl, rfl, rfl, rfl, rfl, rfl, rfl, rfl, rfl⟩

/-- C9: initialize rejects a second initialization: when the core is not
initialized and its initialize does not fault, the first call returns
ok=true with empty error and flips the core's flag, after which the same
call returns ok=false with the AlreadyInitialized error and leaves the
state unchanged. -/
theorem c9_initialize_idempotency_guard (st : CoreState) (sdkKey : String)
    (h1 : st.initialized = false) (h2 : st.initBehavior = .ok ()) :
    initializeOp st sdkKey = .ok (⟨true, ""⟩, { st with initialized := true }) ∧
    initializeOp { st with initialized := true } sdkKey
      = .ok (⟨false, "Statsig already initialized"⟩,
          { st with initialized := true }) := by
  constructor
  · simp [initializeOp, h1, h2]
  · simp [initializeOp]

theorem c9_initialize_idempotency_guard_witness :
    initializeOp uninitializedCore "sdk-key"
      = .ok (⟨true, ""⟩, { uninitializedCore with initialized := true }) ∧
    initializeOp { uninitializedCore with initialized := true } "sdk-key"
      = .ok (⟨false, "Statsig already initialized"⟩,
          { uninitializedCore with initialized := true }) :=
  c9_initialize_idempotency_guard uninitializedCore "sdk-key" rfl rfl

/-- C6: initializeWithOptions, when the core is not yet initialized and its
initialize does not fault, passes the core an options bag in which api is
set only for a non-empty caller string (empty means the core default stays),
while localMode and the three integer tunables are passed through verbatim
and unconditionally, zero included. -/
theorem c6_options_passthrough (st : CoreState) (sdkKey api : String)
    (localMode : Bool)
    (rulesetsSyncIntervalMs loggingIntervalMs loggingMaxBufferSize : Int)
    (h1 : st.initialized = false) (h2 : st.initBehavior = .ok ()) :
    initializeWithOptions st sdkKey api localMode rulesetsSyncIntervalMs
        loggingIntervalMs loggingMaxBufferSize
      = .ok (⟨true, ""⟩,
        { st with
          initialized := true
          lastInitOptions := some ⟨if api.isEmpty then none else some api,
            localMode, rulesetsSyncIntervalMs, loggingIntervalMs,
            loggingMaxBufferSize⟩ }) := by
  cases hA : api.isEmpty <;>
    simp [initializeWithOptions, Options.default, h1, h2, hA]

theorem c6_options_passthrough_witness :
    initializeWithOptions uninitializedCore "sdk-key" "" false 10 1 100
      = .ok (⟨true, ""⟩,
        { uninitializedCore with
          initialized := true
          lastInitOptions := some ⟨none, false, 10, 1, 100⟩ }) :=
  c6_options_passthrough uninitializedCore "sdk-key" "" false 10 1 100 rfl rfl

/-- C10: the guard messages are the exact strings of the source: shutdown
and the five evaluation operations answer "Statsig not initialized" on a
not-initialized core, and both initialize entry points answer "Statsig
already initialized" on an already-initialized core. -/
theorem c10_guard_error_messages (st1 st2 : CoreState) (userJson : String)
    (parsed : Except Fault Json) (name sdkKey api : String) (localMode : Bool)
    (r l b : Int) (h1 : st1.initialized = false) (h2 : st2.initialized = true) :
    shutdown st1 = .ok (⟨false, "Statsig not initialized"⟩, st1) ∧
    (checkGateJson st1 userJson parsed name).error = "Statsig not initialized" ∧
    (getConfigJson st1 userJson parsed name).error = "Statsig not initialized" ∧
    (getExperimentJson st1 userJson parsed name).error
      = "Statsig not initialized" ∧
    (getLayerJson st1 userJson parsed name).error = "Statsig not initialized" ∧
    (logEventJson st1 userJson parsed name).error = "Statsig not initialized" ∧
    initializeOp st2 sdkKey = .ok (⟨false, "Statsig already initialized"⟩, st2) ∧
    initializeWithOptions st2 sdkKey api localMode r l b
      = .ok (⟨false, "Statsig already initialized"⟩, st2) := by
  refine ⟨?_, ?_, ?_, ?_, ?_, ?_, ?_, ?_⟩ <;>
    simp [shutdown, checkGateJson, getConfigJson, getExperimentJson,
      getLayerJson, logEventJson, initializeOp, initializeWithOptions,
      not_initialized_result, h1, h2]

theorem c10_guard_error_messages_witness :
    shutdown uninitializedCore
      = .ok (⟨false, "Statsig not initialized"⟩, uninitializedCore) ∧
    (checkGateJson uninitializedCore "u" (.error Fault.other) "n").error
      = "Statsig not initialized" ∧
    (getConfigJson uninitializedCore "u" (.error Fault.other) "n").error
      = "Statsig not initialized" ∧
    (getExperimentJson uninitializedCore "u" (.error Fault.other) "n").error
      = "Statsig not initialized" ∧
    (getLayerJson uninitializedCore "u" (.error Fault.other) "n").error
      = "Statsig not initialized" ∧
    (logEventJson uninitializedCore "u" (.error Fault.other) "n").error
      = "Statsig not initialized" ∧
    initializeOp respondingCore "sdk-key"
      = .ok (⟨false, "Statsig already initialized"⟩, respondingCore) ∧
    initializeWithOptions respondingCore "sdk-key" "api" true 1 2 3
      = .ok (⟨false, "Statsig already initialized"⟩, respondingCore) :=
  c10_guard_error_messages uninitializedCore respondingCore "u"
    (.error Fault.other) "n" "sdk-key" "api" true 1 2 3 rfl rfl

theorem checkGateJson_inv (st : CoreState) (u : String) (p : Except Fault Json)
    (n : String) : boolResultInv (checkGateJson st u p n) := by
  unfold checkGateJson
  split
  · simp [boolResultInv]
  · split
    · simp [boolResultInv]
    · split <;> simp [boolResultInv]

theorem getConfigJson_inv (st : CoreState) (u : String) (p : Except Fault Json)
    (n : String) : stringResultInv (getConfigJson st u p n) := by
  unfold getConfigJson
  split
  · simp [stringResultInv]
  · split
    · simp [stringResultInv]
    · split <;> simp [stringResultInv]

theorem getExperimentJson_inv (st : CoreState) (u : String)
    (p : Except Fault Json) (n : String) :
    stringResultInv (getExperimentJson st u p n) := by
  unfold getExperimentJson
  split
  · simp [stringResultInv]
  · split
    · simp [stringResultInv]
    · split <;> simp [stringResultInv]

theorem getLayerJson_inv (st : CoreState) (u : String) (p : Except Fault Json)
    (n : String) : stringResultInv (getLayerJson st u p n) := by
  unfold getLayerJson
  split
  · simp [stringResultInv]
  · split
    · simp [stringResultInv]
    · split <;> simp [stringResultInv]

theorem logEventJson_inv (st : CoreState) (u : String) (p : Except Fault Json)
    (n : String) : resultInv (logEventJson st u p n) := by
  unfold logEventJson
  split
  · simp [resultInv, not_initialized_result]
  · split
    · simp [resultInv]
    · split <;> simp [resultInv]

theorem initializeOp_inv (st : CoreState) (k : String) (res : Result)
    (st2 : CoreState) (h : initializeOp st k = .ok (res, st2)) : resultInv res := by
  unfold initializeOp at h
  split at h
  · cases h
    simp [resultInv]
  · split at h
    · cases h
      simp [resultInv]
    · exact Except.noConfusion h

theorem initializeWithOptions_inv (st : CoreState) (k api : String) (lm : Bool)
    (r l b : Int) (res : Result) (st2 : CoreState)
    (h : initializeWithOptions st k api lm r l b = .ok (res, st2)) :
    resultInv res := by
  unfold initializeWithOptions at h
  split at h
  · cases h
    simp [resultInv]
  · split at h <;> split at h <;>
      first
        | (cases h; simp [resultInv])
        | exact Except.noConfusion h

theorem shutdown_inv (st : CoreState) (res : Result) (st2 : CoreState)
    (h : shutdown st = .ok (res, st2)) : resultInv res := by
  unfold shutdown at h
  split at h
  · cases h
    simp [resultInv, not_initialized_result]
  · split at h
    · cases h
      simp [resultInv]
    · exact Except.noConfusion h

/-- C4 (counterexample): the claimed equivalence "ok=false iff error
non-empty" fails: a core whose gate check throws a std::exception with an
empty what() message yields an envelope with ok=false and an empty error
(the source substitutes the fixed fallback only for faults caught by
catch-all, not for an exception whose message is empty). -/
theorem c4_counterexample_empty_fault_message :
    (checkGateJson emptyMessageFaultCore "" (.ok Json.null) "gate").ok = false ∧
    (checkGateJson emptyMessageFaultCore "" (.ok Json.null) "gate").error = "" :=
  ⟨rfl, rfl⟩

/-- C4 (amended): every envelope an adapter operation returns satisfies:
ok=true implies the error is empty, and ok=false implies the payload holds
its zero value (false, or the empty string); hence a populated error never
coexists with a meaningful payload.  The remaining direction of the claimed
equivalence — ok=false implies error non-empty — fails when a core fault
carries an empty message (see the counterexample). -/
theorem c4_envelope_invariants (st : CoreState) (userJson : String)
    (parsed : Except Fault Json) (name sdkKey api : String) (localMode : Bool)
    (r l b : Int) :
    boolResultInv (checkGateJson st userJson parsed name) ∧
    stringResultInv (getConfigJson st userJson parsed name) ∧
    stringResultInv (getExperimentJson st userJson parsed name) ∧
    stringResultInv (getLayerJson st userJson parsed name) ∧
    resultInv (logEventJson st userJson parsed name) ∧
    (∀ res st2, initializeOp st sdkKey = .ok (res, st2) → resultInv res) ∧
    (∀ res st2, initializeWithOptions st sdkKey api localMode r l b
      = .ok (res, st2) → resultInv res) ∧
    (∀ res st2, shutdown st = .ok (res, st2) → resultInv res) :=
  ⟨checkGateJson_inv st userJson parsed name,
   getConfigJson_inv st userJson parsed name,
   getExperimentJson_inv st userJson parsed name,
   getLayerJson_inv st userJson parsed name,
   logEventJson_inv st userJson parsed name,
   fun res st2 h => initializeOp_inv st sdkKey res st2 h,
   fun res st2 h => initializeWithOptions_inv st sdkKey api localMode r l b res st2 h,
   fun res st2 h => shutdown_inv st res st2 h⟩

theorem c4_envelope_invariants_witness :
    (checkGateJson respondingCore "" (.ok Json.null) "gate").error = "" :=
  (c4_envelope_invariants respondingCore "" (.ok Json.null) "gate" "k" ""
    false 0 0 0).1.1 rfl

/-- C3 (amended): a successful getLayerJson surfaces exactly the three
fields name, value and ruleID of the core's layer object, dropping every
other field (the extra groupName is universally quantified and absent from
the output); but the serialized member order is the sorted-map order
name, ruleID, value, not the claimed insertion order name, value, ruleID. -/
theorem c3_layer_projection (st : CoreState) (userJson : String)
    (parsed : Except Fault Json) (layerName : String) (user : User)
    (layer : Layer) (hInit : st.initialized = true)
    (hParse : parse_user_json userJson parsed = .ok user)
    (hLayer : st.getLayerResp user layerName = .ok layer) :
    getLayerJson st userJson parsed layerName
      = ⟨true, dump (Json.obj [("name", Json.str layer.name),
          ("ruleID", Json.str layer.ruleID), ("value", layer.value)]), ""⟩ := by
  simp [getLayerJson, hInit, hParse, hLayer, setKey_layer_eval]

theorem c3_layer_projection_witness :
    getLayerJson exampleLayerCore "\x7b\x7d" (.ok (Json.obj [])) "my_layer"
      = ⟨true, dump (Json.obj [("name", Json.str "my_layer"),
          ("ruleID", Json.str "default"),
          ("value", Json.obj [("x", Json.num 1)])]), ""⟩ :=
  c3_layer_projection exampleLayerCore "\x7b\x7d" (.ok (Json.obj []))
    "my_layer" defaultUser exampleLayer rfl rfl rfl

/-- C3 (counterexample): on the spec's worked example the produced JSON
text places ruleID before value (nlohmann objects serialize in sorted key
order), so it differs from the claimed text with order name, value,
ruleID. -/
theorem c3_counterexample_member_order :
    (getLayerJson exampleLayerCore "\x7b\x7d" (.ok (Json.obj []))
        "my_layer").value
      = "\x7b\"name\":\"my_layer\",\"ruleID\":\"default\",\"value\":\x7b\"x\":1\x7d\x7d" ∧
    (getLayerJson exampleLayerCore "\x7b\x7d" (.ok (Json.obj []))
        "my_layer").value
      ≠ "\x7b\"name\":\"my_layer\",\"value\":\x7b\"x\":1\x7d,\"ruleID\":\"default\"\x7d" :=
  ⟨rfl, by decide⟩

/-- C2 (counterexample): merging is not a wholesale per-key overwrite: for
the caller object with custom set to a nested object holding a null member,
the merged context's custom value is the empty object (merge_patch recurses
and deletes the null member), not the caller's value itself as the claim
states. -/
theorem c2_counterexample_nested_null :
    lookupKey (Json.objFields (build_merged nestedNullInput)) "custom"
      = some (Json.obj []) ∧
    some (Json.obj []) ≠ some (Json.obj [("a", Json.null)]) :=
  ⟨rfl, by simp⟩

/-- C2 (amended): for a caller object with distinct keys, the merge onto
the defaults follows RFC 7386 merge patch: a key absent from the caller
object keeps its default value; a key set to null is removed from the
merged object; a key present with a non-null value ends up merge-patched
into the default at that key — which replaces the default wholesale for
non-object values, but recurses (deleting null-valued sub-keys) for object
values. -/
theorem c2_merge_patch_semantics (fields : List (String × Json)) (k : String)
    (hnd : (fields.map Prod.fst).Nodup) :
    (lookupKey fields k = none →
      lookupKey (Json.objFields (build_merged (Json.obj fields))) k
        = lookupKey default_user_fields k) ∧
    (lookupKey fields k = some Json.null →
      lookupKey (Json.objFields (build_merged (Json.obj fields))) k = none) ∧
    (∀ v, v ≠ Json.null → lookupKey fields k = some v →
      lookupKey (Json.objFields (build_merged (Json.obj fields))) k
        = some (mergePatch (findD default_user_fields k) v)) ∧
    (∀ v, v.isObject = false → v ≠ Json.null → lookupKey fields k = some v →
      lookupKey (Json.objFields (build_merged (Json.obj fields))) k = some v) := by
  have hbuild : Json.objFields (build_merged (Json.obj fields))
      = mergeFields default_user_fields fields := rfl
  have hchar := mergeFields_lookup fields default_user_fields hnd
    keySorted_default_user_fields k
  rw [hbuild]
  refine ⟨hchar.1, hchar.2.1, hchar.2.2, ?_⟩
  intro v hobj hnull hlk
  rw [hchar.2.2 v hnull hlk, mergePatch_non_object _ v hobj]

theorem c2_merge_patch_semantics_witness :
    lookupKey (Json.objFields (build_merged (Json.obj
        [("userID", Json.str "u1"), ("email", Json.null)]))) "userID"
      = some (Json.str "u1") ∧
    lookupKey (Json.objFields (build_merged (Json.obj
        [("userID", Json.str "u1"), ("email", Json.null)]))) "email" = none ∧
    lookupKey (Json.objFields (build_merged (Json.obj
        [("userID", Json.str "u1"), ("email", Json.null)]))) "country"
      = some (Json.str "") :=
  ⟨(c2_merge_patch_semantics [("userID", Json.str "u1"), ("email", Json.null)]
      "userID" (by decide)).2.2.2 (Json.str "u1") rfl (fun h => Json.noConfusion h) rfl,
   (c2_merge_patch_semantics [("userID", Json.str "u1"), ("email", Json.null)]
      "email" (by decide)).2.1 rfl,
   (c2_merge_patch_semantics [("userID", Json.str "u1"), ("email", Json.null)]
      "country" (by decide)).1 rfl⟩

end StatsigSwift
